import Mathlib

/-!
Shallow embedding of quetz/main.py (the only source file of this repository).

The FastAPI endpoint handlers of quetz/main.py are translated into pure Lean
functions over an explicit database state (`Db`), an explicit file-system state
(`Fs`, the `static/channels` tree), and an explicit session (`Session`, the
three keys this application ever stores in the Starlette session dict:
user_id, identity_provider, token).

The modules `quetz.dao` (class Dao) and `quetz.authorization` (class Rules)
are imported by main.py but their code is not part of this repository snapshot;
every definition standing in for them is marked `Modelled from the spec:` and
follows the specification's words for that operation.

External library behaviour is represented as data:
  * opening the uploaded archive as a bz2 tar stream and parsing its
    info/index.json (Python tarfile + json modules) is represented by the
    field `UploadFile.tarIndexJson : Option IndexJson` - `some info` when the
    archive opens and the entry parses to a JSON document with the accessed
    keys, `none` when any of those steps raises (tarfile.ReadError, KeyError,
    json.JSONDecodeError).  main.py does not catch those exceptions, which the
    embedding records as a `ServerErr.crash` outcome.
  * the github token validation call `auth_github.validate_token` is an oracle
    parameter `validate_token : Option String → Bool`.
  * `secrets.token_urlsafe(32)` is a parameter `fresh_key : String`.
  * `str(uuid.UUID(bytes=user.id))` (uuid module formatting) is kept abstract:
    user ids are modelled as the strings the session ends up storing.
-/

namespace Quetz

/-- An HTTP error response (fastapi.HTTPException): status code and detail. -/
structure HTTPError where
  status_code : Nat
  detail : String
deriving DecidableEq, Repr

/-- Outcome of a request that may also die with an uncaught Python exception
(which FastAPI turns into a 500, distinct from a raised HTTPException). -/
inductive ServerErr where
  | http (e : HTTPError)
  | crash (msg : String)
deriving DecidableEq, Repr

/-- The three keys quetz stores in the Starlette session dict. -/
structure Session where
  user_id : Option String
  identity_provider : Option String
  token : Option String
deriving DecidableEq, Repr

/-- Roles, weakest to strongest.  Modelled from the spec: MEMBER < MAINTAINER
< OWNER, an ordered set (quetz.authorization constants are not in src). -/
inductive Role where
  | member
  | maintainer
  | owner
deriving DecidableEq, Repr

/-- Rank of a role in the precedence lattice (absence of a role ranks 0). -/
def Role.rank : Role → Nat
  | .member => 1
  | .maintainer => 2
  | .owner => 3

structure UserRec where
  id : String
  username : String
deriving DecidableEq, Repr

structure ChannelRec where
  name : String
  description : String
deriving DecidableEq, Repr

structure PackageRec where
  channel_name : String
  name : String
  description : String
deriving DecidableEq, Repr

structure ChannelMemberRec where
  channel_name : String
  user_id : String
  role : Role
deriving DecidableEq, Repr

structure PackageMemberRec where
  channel_name : String
  package_name : String
  user_id : String
  role : Role
deriving DecidableEq, Repr

/-- The JSON document embedded at info/index.json of a conda package, with
exactly the keys main.py reads: name, subdir, version, build_number, build. -/
structure IndexJson where
  name : String
  subdir : String
  version : String
  build_number : Nat
  build : String
deriving DecidableEq, Repr

structure PackageVersionRec where
  channel_name : String
  package_name : String
  platform : String
  version : String
  build_number : Nat
  build_string : String
  filename : String
  info : IndexJson
  uploader_id : String
deriving DecidableEq, Repr

/-- A (channel, package-or-null, role) scoping tuple of an API key. -/
structure CPRole where
  channel : String
  package : Option String
  role : Role
deriving DecidableEq, Repr

structure ApiKeyRec where
  key : String
  description : String
  owner_id : String
  roles : List CPRole
deriving DecidableEq, Repr

/-- The persisted state owned by the Data Access Layer. -/
structure Db where
  users : List UserRec
  channels : List ChannelRec
  channel_members : List ChannelMemberRec
  packages : List PackageRec
  package_members : List PackageMemberRec
  versions : List PackageVersionRec
  api_keys : List ApiKeyRec
deriving DecidableEq, Repr

def emptyDb : Db := ⟨[], [], [], [], [], [], []⟩

/-- The file-system tree under static/channels, as path ↦ bytes. -/
abbrev Fs := List (String × String)

/-- Writing a path: a pre-existing file at that exact path is overwritten
(open(path, 'wb') + shutil.copyfileobj in main.py post_file). -/
def fsWrite (fs : List (String × String)) (path content : String) :
    List (String × String) :=
  match fs with
  | [] => [(path, content)]
  | (p, c) :: rest =>
    if p = path then (p, content) :: rest else (p, c) :: fsWrite rest path content

def fsRead (fs : List (String × String)) (path : String) : Option String :=
  match fs with
  | [] => none
  | (p, c) :: rest => if p = path then some c else fsRead rest path

/-- The credentials of one request: the x-api-key header and the session
(the two inputs of authorization.Rules in get_rules). -/
structure Creds where
  api_key : Option String
  session : Session

-- ------------------------------------------------------------------
-- Session helpers of main.py
-- ------------------------------------------------------------------

/-- main.py logout: pops user_id, identity_provider and token from the
session dict (the only keys this application stores there). -/
def logout (_s : Session) : Session := ⟨none, none, none⟩

def unauthenticatedErr : HTTPError := ⟨401, "Not logged in"⟩

def permissionDeniedErr : HTTPError := ⟨403, "Permission denied"⟩

/-- main.py check_token_revocation: the Python condition
`identity_provider and identity_provider == 'github'` holds exactly when the
session stores the string 'github' (None and '' are falsy, and '' is not
'github' anyway), so it is embedded as equality with `some "github"`.
On a failed validation the session is cleared and 401 'Not logged in' raised. -/
def check_token_revocation (validate_token : Option String → Bool)
    (s : Session) : Session × Option HTTPError :=
  if s.identity_provider = some "github" then
    if validate_token s.token then (s, none)
    else (logout s, some unauthenticatedErr)
  else (s, none)

-- ------------------------------------------------------------------
-- Authorization (quetz.authorization is not in src; modelled from the spec)
-- ------------------------------------------------------------------

/-- A resolved principal: anonymous, a session-bound user, or an API key. -/
inductive Principal where
  | anon
  | user (uid : String)
  | apikey (k : ApiKeyRec)

/-- Modelled from the spec: principal resolution of authorization.Rules
(module not in src).  A presented x-api-key header is looked up by exact
match against stored keys; otherwise the session's user id is used;
otherwise the request is anonymous. -/
def resolve_principal (db : Db) (creds : Creds) : Principal :=
  match creds.api_key with
  | some raw =>
    match db.api_keys.find? (fun k => decide (k.key = raw)) with
    | some k => .apikey k
    | none => .anon
  | none =>
    match creds.session.user_id with
    | some uid => .user uid
    | none => .anon

/-- Modelled from the spec: Rules.assert_user - requires a resolved principal
(session user, or API key which stands for its owning user); fails
UNAUTHENTICATED if anonymous. -/
def assert_user (db : Db) (creds : Creds) : Except HTTPError String :=
  match resolve_principal db creds with
  | .anon => .error unauthenticatedErr
  | .user uid => .ok uid
  | .apikey k => .ok k.owner_id

def memberRank : Option Role → Nat
  | none => 0
  | some r => r.rank

/-- Modelled from the spec: the stored channel-scope membership row of a user. -/
def channel_member_role (db : Db) (uid cname : String) : Option Role :=
  (db.channel_members.find?
    (fun m => decide (m.channel_name = cname) && decide (m.user_id = uid))).map
    (fun m => m.role)

/-- Modelled from the spec: the stored package-scope membership row of a user. -/
def package_member_role (db : Db) (uid cname pname : String) : Option Role :=
  (db.package_members.find?
    (fun m => decide (m.channel_name = cname) && decide (m.package_name = pname)
      && decide (m.user_id = uid))).map (fun m => m.role)

/-- Modelled from the spec: effective role rank of a user at a scope -
max of the package-scope row and the channel-scope row, absence ranking 0
(channel roles inherit down to every package of the channel). -/
def scope_rank (db : Db) (uid cname : String) (pname : Option String) : Nat :=
  match pname with
  | none => memberRank (channel_member_role db uid cname)
  | some p =>
    max (memberRank (channel_member_role db uid cname))
        (memberRank (package_member_role db uid cname p))

/-- Does a key scoping tuple's package field cover the requested scope?
A null package scopes the whole channel. -/
def tuple_covers : Option String → Option String → Bool
  | none, _ => true
  | some q, some p => decide (q = p)
  | some _, none => false

/-- Modelled from the spec: the ceiling rank an API key's own scoping tuples
grant at a scope. -/
def key_ceiling_rank (k : ApiKeyRec) (cname : String) (pname : Option String) :
    Nat :=
  (k.roles.filter
    (fun t => decide (t.channel = cname) && tuple_covers t.package pname)).foldr
    (fun t m => max t.role.rank m) 0

/-- Modelled from the spec: effective rank of a resolved principal at a scope.
An API key is capped by both its recorded tuples and its owning user's
actual current role (tuples are a ceiling, re-checked live). -/
def principal_rank (db : Db) (p : Principal) (cname : String)
    (pname : Option String) : Nat :=
  match p with
  | .anon => 0
  | .user uid => scope_rank db uid cname pname
  | .apikey k =>
    min (key_ceiling_rank k cname pname) (scope_rank db k.owner_id cname pname)

/-- Modelled from the spec: Rules.assert_upload_file - requires effective role
at package scope of at least MAINTAINER (a channel OWNER or MAINTAINER
suffices via inheritance). -/
def assert_upload_file (db : Db) (creds : Creds) (cname pname : String) :
    Except HTTPError Unit :=
  match resolve_principal db creds with
  | .anon => .error unauthenticatedErr
  | p =>
    if Role.maintainer.rank ≤ principal_rank db p cname (some pname) then .ok ()
    else .error permissionDeniedErr

/-- Modelled from the spec: Rules.assert_create_api_key_roles - every
requested (channel, package, role) tuple must be at or below the caller's
effective role at that scope; an empty tuple list is permitted. -/
def assert_create_api_key_roles (db : Db) (creds : Creds)
    (roles : List CPRole) : Except HTTPError Unit :=
  match resolve_principal db creds with
  | .anon => .error unauthenticatedErr
  | p =>
    if roles.all
        (fun t => decide (t.role.rank ≤ principal_rank db p t.channel t.package))
    then .ok ()
    else .error permissionDeniedErr

-- ------------------------------------------------------------------
-- Data Access Layer (quetz.dao is not in src; modelled from the spec)
-- ------------------------------------------------------------------

/-- Modelled from the spec: Dao.get_channel - lookup of a channel by name. -/
def get_channel (db : Db) (cname : String) : Option ChannelRec :=
  db.channels.find? (fun c => decide (c.name = cname))

/-- Modelled from the spec: Dao.get_package - lookup of a package by
(channel name, package name). -/
def get_package (db : Db) (cname pname : String) : Option PackageRec :=
  db.packages.find?
    (fun p => decide (p.channel_name = cname) && decide (p.name = pname))

/-- Modelled from the spec: Dao.get_user_by_username. -/
def get_user_by_username (db : Db) (uname : String) : Option UserRec :=
  db.users.find? (fun u => decide (u.username = uname))

/-- Modelled from the spec: Dao.get_profile - the profile of a user id. -/
def get_profile (db : Db) (uid : String) : Option UserRec :=
  db.users.find? (fun u => decide (u.id = uid))

def channel_exists_err (cname : String) : HTTPError :=
  ⟨409, "Channel " ++ cname ++ " exists"⟩

def channel_not_found_err (cname : String) : HTTPError :=
  ⟨404, "Channel " ++ cname ++ " not found"⟩

def package_exists_err (cname pname : String) : HTTPError :=
  ⟨409, "Package " ++ cname ++ "/" ++ pname ++ " exists"⟩

def package_not_found_err (cname pname : String) : HTTPError :=
  ⟨404, "Package " ++ cname ++ "/" ++ pname ++ " not found"⟩

/-- Modelled from the spec: Dao.create_channel - an atomic
check-existence-then-insert; a duplicate name fails with CONFLICT; the
creating user is recorded as a member of the new channel with the given
role (the caller passes OWNER). -/
def create_channel (db : Db) (nc : ChannelRec) (user_id : String)
    (role : Role) : Except HTTPError Db :=
  if (get_channel db nc.name).isSome then .error (channel_exists_err nc.name)
  else .ok { db with
    channels := nc :: db.channels,
    channel_members := ⟨nc.name, user_id, role⟩ :: db.channel_members }

/-- The request body of POST /channels/{c}/packages (rest_models.Package). -/
structure PackageBody where
  name : String
  description : String
deriving DecidableEq, Repr

/-- Modelled from the spec: Dao.create_package - an atomic
check-existence-then-insert; a duplicate (channel, name) fails with CONFLICT;
the creating user is recorded as a package-scope member with the given role. -/
def create_package (db : Db) (cname : String) (np : PackageBody)
    (user_id : String) (role : Role) : Except HTTPError Db :=
  if (get_package db cname np.name).isSome then
    .error (package_exists_err cname np.name)
  else .ok { db with
    packages := ⟨cname, np.name, np.description⟩ :: db.packages,
    package_members := ⟨cname, np.name, user_id, role⟩ :: db.package_members }

/-- Equality of the uniqueness key (package, platform, version, build_number,
build_string) of two version rows. -/
def same_version_key (a b : PackageVersionRec) : Bool :=
  decide (a.channel_name = b.channel_name) && decide (a.package_name = b.package_name)
    && decide (a.platform = b.platform) && decide (a.version = b.version)
    && decide (a.build_number = b.build_number)
    && decide (a.build_string = b.build_string)

def duplicateVersionErr : HTTPError := ⟨409, "Duplicate version"⟩

/-- Modelled from the spec: Dao.create_version - persists a PackageVersion row
keyed by (package, platform, version, build_number, build_string); a
duplicate key fails with CONFLICT, checked by the Data Access Layer. -/
def create_version (db : Db) (v : PackageVersionRec) : Except HTTPError Db :=
  if db.versions.any (fun w => same_version_key w v) then
    .error duplicateVersionErr
  else .ok { db with versions := v :: db.versions }

/-- Modelled from the spec: Dao.create_api_key - stores the generated secret
with its owning user, description and requested scoping tuples. -/
def create_api_key (db : Db) (uid : String) (description : String)
    (roles : List CPRole) (fresh_key : String) : Db :=
  { db with api_keys := ⟨fresh_key, description, uid, roles⟩ :: db.api_keys }

-- ------------------------------------------------------------------
-- Endpoints of main.py
-- ------------------------------------------------------------------

/-- main.py dummy_login: looks the user up by username (an absent user would
make `user.id` raise, hence the Option result), clears the session, then sets
user_id and identity_provider := 'dummy' (no token is set). -/
def dummy_login (db : Db) (username : String) (s : Session) : Option Session :=
  match get_user_by_username db username with
  | none => none
  | some user =>
    let s1 := logout s
    let s2 := { s1 with user_id := some user.id }
    some { s2 with identity_provider := some "dummy" }

/-- main.py me (GET /me): runs check_token_revocation on the session, then
assert_user, then returns the profile.  The returned pair is the session
state after the call and the HTTP outcome. -/
def me (validate_token : Option String → Bool) (db : Db) (creds : Creds) :
    Session × Except HTTPError (Option UserRec) :=
  match check_token_revocation validate_token creds.session with
  | (s2, some e) => (s2, .error e)
  | (s2, none) =>
    match assert_user db { creds with session := s2 } with
    | .error e => (s2, .error e)
    | .ok uid => (s2, .ok (get_profile db uid))

/-- main.py post_channel (POST /channels): assert_user, 409 if the name
exists, else create the channel with the caller as OWNER. -/
def post_channel (db : Db) (creds : Creds) (nc : ChannelRec) :
    Db × Except HTTPError Unit :=
  match assert_user db creds with
  | .error e => (db, .error e)
  | .ok uid =>
    if (get_channel db nc.name).isSome then
      (db, .error (channel_exists_err nc.name))
    else
      match create_channel db nc uid .owner with
      | .error e => (db, .error e)
      | .ok db2 => (db2, .ok ())

/-- main.py post_package (POST /channels/{c}/packages): channel must exist
(404), assert_user, 409 if the package exists, else create it with the
caller as OWNER. -/
def post_package (db : Db) (creds : Creds) (channel_name : String)
    (np : PackageBody) : Db × Except HTTPError Unit :=
  match get_channel db channel_name with
  | none => (db, .error (channel_not_found_err channel_name))
  | some channel =>
    match assert_user db creds with
    | .error e => (db, .error e)
    | .ok uid =>
      if (get_package db channel.name np.name).isSome then
        (db, .error (package_exists_err channel.name np.name))
      else
        match create_package db channel.name np uid .owner with
        | .error e => (db, .error e)
        | .ok db2 => (db2, .ok ())

/-- The request body of POST /api-keys (rest_models.BaseApiKey). -/
structure BaseApiKey where
  description : String
  roles : List CPRole
deriving DecidableEq, Repr

/-- The response model of GET /api-keys (rest_models.ApiKey): the stored raw
key string, its description and its scoping tuples. -/
structure ApiKeyOut where
  key : String
  description : String
  roles : List CPRole
deriving DecidableEq, Repr

/-- Outcome of POST /api-keys.  `response_secret` is what the endpoint's
response body carries of the generated secret: main.py post_api_key ends with
the dao call and returns nothing, so the embedding sets it to `none` on every
path. -/
structure PostApiKeyOut where
  db : Db
  response_secret : Option String
  error : Option HTTPError
deriving Repr

/-- main.py post_api_key (POST /api-keys): assert_create_api_key_roles,
assert_user, generate a secret (`fresh_key` stands for
secrets.token_urlsafe(32)), store it; the handler body has no return
statement, so the creation response carries no secret. -/
def post_api_key (db : Db) (creds : Creds) (req : BaseApiKey)
    (fresh_key : String) : PostApiKeyOut :=
  match assert_create_api_key_roles db creds req.roles with
  | .error e => ⟨db, none, some e⟩
  | .ok _ =>
    match assert_user db creds with
    | .error e => ⟨db, none, some e⟩
    | .ok uid => ⟨create_api_key db uid req.description req.roles fresh_key,
                  none, none⟩

/-- main.py get_api_keys (GET /api-keys): assert_user, then list the caller's
stored keys - each entry carrying the raw key string - with their scoping
tuples (Dao.get_api_keys plus the groupby is modelled from the spec: list
keys grouped by key, with role tuples). -/
def get_api_keys (db : Db) (creds : Creds) :
    Except HTTPError (List ApiKeyOut) :=
  match assert_user db creds with
  | .error e => .error e
  | .ok uid =>
    .ok ((db.api_keys.filter (fun k => decide (k.owner_id = uid))).map
      (fun k => ⟨k.key, k.description, k.roles⟩))

-- ------------------------------------------------------------------
-- Ingestion pipeline (main.py post_file)
-- ------------------------------------------------------------------

/-- An uploaded multipart file.  `tarIndexJson` is the outcome of the external
tarfile/json steps on `content` (see the header comment): `some info` when
the bz2 tar opens and info/index.json parses, `none` when any of those raises. -/
structure UploadFile where
  filename : String
  content : String
  tarIndexJson : Option IndexJson
deriving DecidableEq, Repr

/-- The characters of a filename before its first '-'. -/
def prefix_before_dash_aux : List Char → List Char
  | [] => []
  | c :: rest => if c = '-' then [] else c :: prefix_before_dash_aux rest

/-- Embeds Python `filename.split('-')[0]`: the prefix of the filename up to
(excluding) the first '-', the whole string when no '-' occurs. -/
def prefix_before_dash (s : String) : String :=
  ⟨prefix_before_dash_aux s.data⟩

def badRequestErr : HTTPError := ⟨400, "Bad Request"⟩

/-- The uncaught exception of the tarfile/extractfile/json.load block of
post_file (tarfile.ReadError, KeyError or json.JSONDecodeError - main.py
wraps none of them). -/
def ingestCrash : ServerErr := .crash "uncaught exception reading archive metadata"

/-- main.py: channel_dir = f'static/channels/{channel name}'. -/
def channel_dir_of (cname : String) : String := "static/channels/" ++ cname

/-- main.py: dir = f'{channel_dir}/{subdir}/'. -/
def upload_dir (channel_dir subdir : String) : String :=
  channel_dir ++ "/" ++ subdir ++ "/"

/-- main.py: the destination f'{dir}/{filename}' (note the doubled slash:
`dir` already ends in '/'). -/
def upload_path (channel_dir subdir filename : String) : String :=
  upload_dir channel_dir subdir ++ "/" ++ filename

/-- The PackageVersion row post_file hands to Dao.create_version. -/
def version_row (package : PackageRec) (info : IndexJson)
    (filename uid : String) : PackageVersionRec :=
  ⟨package.channel_name, package.name, info.subdir, info.version,
   info.build_number, info.build, filename, info, uid⟩

/-- State after processing some files of a batch: database, file system, and
the error (if any) that aborted the batch. -/
structure IngestOut where
  db : Db
  fs : Fs
  err : Option ServerErr

/-- One iteration of the post_file loop, in main.py's order: open/parse the
archive (a failure is an uncaught crash), check the filename prefix and the
metadata name against the package (mismatch: bare HTTP 400), write the raw
bytes to the destination path (overwriting), resolve the user, record the
version row (duplicate key: CONFLICT from the Data Access Layer — note the
file bytes are already on disk by then). -/
def process_file (creds : Creds) (package : PackageRec) (channel_dir : String)
    (db : Db) (fs : Fs) (f : UploadFile) : IngestOut :=
  match f.tarIndexJson with
  | none => ⟨db, fs, some ingestCrash⟩
  | some info =>
    if prefix_before_dash f.filename ≠ package.name ∨ info.name ≠ package.name then
      ⟨db, fs, some (.http badRequestErr)⟩
    else
      let fs2 := fsWrite fs (upload_path channel_dir info.subdir f.filename) f.content
      match assert_user db creds with
      | .error e => ⟨db, fs2, some (.http e)⟩
      | .ok uid =>
        match create_version db (version_row package info f.filename uid) with
        | .error e => ⟨db, fs2, some (.http e)⟩
        | .ok db2 => ⟨db2, fs2, none⟩

/-- The `for file in files` loop of post_file: each file is processed in
order; the first failure aborts the batch (files already committed stay). -/
def files_loop (creds : Creds) (package : PackageRec) (channel_dir : String) :
    List UploadFile → Db → Fs → IngestOut
  | [], db, fs => ⟨db, fs, none⟩
  | f :: rest, db, fs =>
    match process_file creds package channel_dir db fs f with
    | ⟨db2, fs2, some e⟩ => ⟨db2, fs2, some e⟩
    | ⟨db2, fs2, none⟩ => files_loop creds package channel_dir rest db2 fs2

/-- Outcome of POST .../files/: final database and file system, whether the
`subprocess.run(['conda', 'index', channel_dir])` line was reached
(`ran_index`), and the error if the request failed. -/
structure PostFileOut where
  db : Db
  fs : Fs
  ran_index : Bool
  error : Option ServerErr
deriving Repr

/-- main.py post_file: resolve channel and package (404s), assert_upload_file,
run the loop over the files, and - only if no exception escaped the loop -
invoke the index regeneration subprocess (whose exit status is not checked). -/
def post_file (db : Db) (fs : Fs) (creds : Creds)
    (channel_name package_name : String) (files : List UploadFile) :
    PostFileOut :=
  match get_channel db channel_name with
  | none => ⟨db, fs, false, some (.http (channel_not_found_err channel_name))⟩
  | some channel =>
    match get_package db channel.name package_name with
    | none => ⟨db, fs, false,
               some (.http (package_not_found_err channel.name package_name))⟩
    | some package =>
      match assert_upload_file db creds package.channel_name package.name with
      | .error e => ⟨db, fs, false, some (.http e)⟩
      | .ok _ =>
        match files_loop creds package (channel_dir_of package.channel_name)
            files db fs with
        | ⟨db2, fs2, some e⟩ => ⟨db2, fs2, false, some e⟩
        | ⟨db2, fs2, none⟩ => ⟨db2, fs2, true, none⟩

-- ------------------------------------------------------------------
-- Two concurrent POST /channels requests (for the race of claim C8):
-- each request is the post_channel body split at its atomic persistence
-- steps - read the existence check, then create.  A schedule interleaves
-- the two requests' steps.
-- ------------------------------------------------------------------

/-- Program counter of one in-flight POST /channels request. -/
inductive ReqPC where
  | start
  | checked (found : Bool)
  | done (r : Except HTTPError Unit)

/-- One atomic step of a post_channel request (after assert_user): from
`start`, read the existence check; from `checked`, either fail 409 (found) or
call the atomic Dao.create_channel; `done` requests do not move. -/
def race_step (nc : ChannelRec) (uid : String) (db : Db) : ReqPC → Db × ReqPC
  | .start => (db, .checked (get_channel db nc.name).isSome)
  | .checked true => (db, .done (.error (channel_exists_err nc.name)))
  | .checked false =>
    match create_channel db nc uid .owner with
    | .error e => (db, .done (.error e))
    | .ok db2 => (db2, .done (.ok ()))
  | .done r => (db, .done r)

/-- The shared database and the two requests' program counters. -/
structure RaceState where
  db : Db
  r1 : ReqPC
  r2 : ReqPC

/-- Run a schedule: `true` lets request 1 take its next step, `false`
request 2. -/
def race_run (nc : ChannelRec) (uid1 uid2 : String) :
    List Bool → RaceState → RaceState
  | [], st => st
  | true :: rest, st =>
    let p := race_step nc uid1 st.db st.r1
    race_run nc uid1 uid2 rest ⟨p.1, p.2, st.r2⟩
  | false :: rest, st =>
    let p := race_step nc uid2 st.db st.r2
    race_run nc uid1 uid2 rest ⟨p.1, st.r1, p.2⟩

/-- Whether a channel of this name is already recorded. -/
def chanExists (db : Db) (cname : String) : Bool := (get_channel db cname).isSome

/-- A request that has neither observed the channel nor finished. -/
def pcPending (pc : ReqPC) : Prop := pc = .start ∨ pc = .checked false

/-- A request that can only still end in the 409 CONFLICT outcome. -/
def pcLoser (cname : String) (pc : ReqPC) : Prop :=
  pc = .start ∨ pc = .checked false ∨ pc = .checked true ∨
    pc = .done (.error (channel_exists_err cname))

/-- Invariant of the two-request race on one channel name: either the channel
does not exist yet and both requests are pending, or it exists and exactly
one request has won while the other can only lose with CONFLICT. -/
def raceInv (cname : String) (st : RaceState) : Prop :=
  (chanExists st.db cname = false ∧ pcPending st.r1 ∧ pcPending st.r2)
  ∨ (chanExists st.db cname = true ∧
      ((st.r1 = .done (.ok ()) ∧ pcLoser cname st.r2)
        ∨ (st.r2 = .done (.ok ()) ∧ pcLoser cname st.r1)))

-- ------------------------------------------------------------------
-- Concrete test fixtures (used by witnesses and counterexamples)
-- ------------------------------------------------------------------

def u1 : UserRec := ⟨"u1", "alice"⟩

def db_users : Db := ⟨[u1], [], [], [], [], [], []⟩

def s_u1 : Session := ⟨some "u1", some "dummy", none⟩

def creds_u1 : Creds := ⟨none, s_u1⟩

def vt_false : Option String → Bool := fun _ => false

def vt_true : Option String → Bool := fun _ => true

def s_dummy_tok : Session := ⟨some "u1", some "dummy", some "tok"⟩

def s_github_tok : Session := ⟨some "u1", some "github", some "tok"⟩

def ch0 : ChannelRec := ⟨"ch", ""⟩

def pkg0 : PackageRec := ⟨"ch", "pkg", ""⟩

def db_file : Db := ⟨[u1], [ch0], [⟨"ch", "u1", .owner⟩], [pkg0], [], [], []⟩

def info0 : IndexJson := ⟨"pkg", "linux-64", "1.0", 0, "0"⟩

def f_b : UploadFile := ⟨"pkg-1.0-0.tar.bz2", "BBB", some info0⟩

def f_bad : UploadFile := ⟨"pkg-1.0-0.tar.bz2", "XX", none⟩

def f_misnamed : UploadFile := ⟨"other-1.0-0.tar.bz2", "AAA", some info0⟩

def v0 : PackageVersionRec := version_row pkg0 info0 "pkg-1.0-0.tar.bz2" "u1"

def db_dup : Db := ⟨[u1], [ch0], [⟨"ch", "u1", .owner⟩], [pkg0], [], [v0], []⟩

def p0 : String := upload_path (channel_dir_of "ch") "linux-64" "pkg-1.0-0.tar.bz2"

def fs_dup : Fs := [(p0, "AAA")]

def req0 : BaseApiKey := ⟨"ci key", []⟩

def nc0 : ChannelRec := ⟨"ch", ""⟩

def np0 : PackageBody := ⟨"pkg", ""⟩

def db_chan : Db := ⟨[u1], [nc0], [⟨"ch", "u1", .owner⟩], [], [], [], []⟩

def db_after_ch : Db := ⟨[u1], [nc0], [⟨"ch", "u1", .owner⟩], [], [], [], []⟩

def db_after_pkg : Db :=
  ⟨[u1], [nc0], [⟨"ch", "u1", .owner⟩], [⟨"ch", "pkg", ""⟩],
   [⟨"ch", "pkg", "u1", .owner⟩], [], []⟩

-- ------------------------------------------------------------------
-- Shared helper lemmas
-- ------------------------------------------------------------------

/-- A file whose archive or metadata does not parse makes its processing step
end in the uncaught exception, touching neither database nor file system. -/
lemma process_file_badtar (creds : Creds) (package : PackageRec) (cdir : String)
    (db : Db) (fs : Fs) (f : UploadFile)
    (hinfo : f.tarIndexJson = none) :
    process_file creds package cdir db fs f = ⟨db, fs, some ingestCrash⟩ := by
  simp only [process_file, hinfo]

/-- A name mismatch makes the processing step end in HTTP 400, touching
neither database nor file system. -/
lemma process_file_mismatch (creds : Creds) (package : PackageRec) (cdir : String)
    (db : Db) (fs : Fs) (f : UploadFile) (info : IndexJson)
    (hinfo : f.tarIndexJson = some info)
    (hmism : prefix_before_dash f.filename ≠ package.name ∨ info.name ≠ package.name) :
    process_file creds package cdir db fs f = ⟨db, fs, some (.http badRequestErr)⟩ := by
  simp only [process_file, hinfo]
  rw [if_pos hmism]

/-- One processing step never removes recorded versions. -/
lemma process_file_versions_suffix (creds : Creds) (package : PackageRec)
    (cdir : String) (db : Db) (fs : Fs) (f : UploadFile) :
    List.IsSuffix db.versions (process_file creds package cdir db fs f).db.versions := by
  unfold process_file
  split
  · exact List.suffix_refl _
  · split
    · exact List.suffix_refl _
    · split
      · exact List.suffix_refl _
      · split
        · exact List.suffix_refl _
        · next db2 hcv =>
          unfold create_version at hcv
          split at hcv
          · exact absurd hcv (by simp)
          · injection hcv with h
            rw [← h]
            exact List.suffix_cons _ _

/-- The upload loop never removes recorded versions. -/
lemma files_loop_versions_suffix (creds : Creds) (package : PackageRec)
    (cdir : String) :
    ∀ (files : List UploadFile) (db : Db) (fs : Fs),
    List.IsSuffix db.versions (files_loop creds package cdir files db fs).db.versions
  | [], _, _ => List.suffix_refl _
  | f :: rest, db, fs => by
    unfold files_loop
    have h1 := process_file_versions_suffix creds package cdir db fs f
    split
    · next db2 fs2 e hpf =>
      rw [hpf] at h1
      exact h1
    · next db2 fs2 hpf =>
      rw [hpf] at h1
      exact List.IsSuffix.trans h1
        (files_loop_versions_suffix creds package cdir rest db2 fs2)

/-- What a successful post_channel did: the caller resolved to a user, the
name was absent, and the new state holds the channel plus an OWNER row. -/
lemma post_channel_ok_facts (db : Db) (creds : Creds) (nc : ChannelRec) (db2 : Db)
    (h : post_channel db creds nc = (db2, .ok ())) :
    (∃ uid, assert_user db creds = .ok uid ∧
       db2 = { db with channels := nc :: db.channels,
                       channel_members := ⟨nc.name, uid, .owner⟩ :: db.channel_members }) ∧
    (get_channel db nc.name).isSome = false := by
  unfold post_channel at h
  cases hu : assert_user db creds with
  | error e => rw [hu] at h; simp at h
  | ok uid =>
    rw [hu] at h
    simp only [] at h
    by_cases hex : (get_channel db nc.name).isSome
    · rw [if_pos hex] at h
      simp at h
    · rw [if_neg hex] at h
      unfold create_channel at h
      rw [if_neg hex] at h
      simp only [] at h
      rw [Prod.mk.injEq] at h
      exact ⟨⟨uid, rfl, h.1.symm⟩, by simpa using hex⟩

/-- The channel found under a name carries that name. -/
lemma get_channel_name (db : Db) (cname : String) (ch : ChannelRec)
    (h : get_channel db cname = some ch) : ch.name = cname := by
  unfold get_channel at h
  have := List.find?_some h
  simpa using this

/-- What a successful post_package did: the caller resolved to a user and the
new state holds the package plus a package-scope OWNER row. -/
lemma post_package_ok_facts (db : Db) (creds : Creds) (cname : String)
    (np : PackageBody) (db2 : Db)
    (h : post_package db creds cname np = (db2, .ok ())) :
    ∃ uid, assert_user db creds = .ok uid ∧
      db2 = { db with packages := ⟨cname, np.name, np.description⟩ :: db.packages,
                      package_members := ⟨cname, np.name, uid, .owner⟩ :: db.package_members } := by
  unfold post_package at h
  cases hch : get_channel db cname with
  | none => rw [hch] at h; simp at h
  | some channel =>
    rw [hch] at h
    simp only [] at h
    cases hu : assert_user db creds with
    | error e => rw [hu] at h; simp at h
    | ok uid =>
      rw [hu] at h
      simp only [] at h
      by_cases hex : (get_package db channel.name np.name).isSome
      · rw [if_pos hex] at h
        simp at h
      · rw [if_neg hex] at h
        unfold create_package at h
        rw [if_neg hex] at h
        simp only [] at h
        rw [Prod.mk.injEq] at h
        have hn := get_channel_name db cname channel hch
        refine ⟨uid, rfl, ?_⟩
        rw [← h.1, hn]

/-- Creating a channel makes its name exist. -/
lemma chanExists_after_create (db : Db) (nc : ChannelRec) (uid : String) (role : Role) :
    chanExists { db with channels := nc :: db.channels, channel_members := ⟨nc.name, uid, role⟩ :: db.channel_members } nc.name = true := by
  simp [chanExists, get_channel]

/-- The race invariant is symmetric in the two requests. -/
lemma raceInv_swap (cname : String) (db : Db) (a b : ReqPC)
    (h : raceInv cname ⟨db, a, b⟩) : raceInv cname ⟨db, b, a⟩ := by
  rcases h with ⟨hex, hA, hB⟩ | ⟨hex, h1 | h2⟩
  · exact Or.inl ⟨hex, hB, hA⟩
  · exact Or.inr ⟨hex, Or.inr h1⟩
  · exact Or.inr ⟨hex, Or.inl h2⟩

/-- One step of the first request preserves the race invariant. -/
lemma race_step_preserves (nc : ChannelRec) (uid : String) (db : Db) (pcA pcB : ReqPC)
    (h : raceInv nc.name ⟨db, pcA, pcB⟩) :
    raceInv nc.name ⟨(race_step nc uid db pcA).1, (race_step nc uid db pcA).2, pcB⟩ := by
  rcases h with ⟨hex, hA, hB⟩ | ⟨hex, ⟨hA, hB⟩ | ⟨hB, hA⟩⟩
  · -- channel absent, both requests pending
    have hexb : (get_channel db nc.name).isSome = false := hex
    rcases hA with rfl | rfl
    · refine Or.inl ⟨hex, ?_, hB⟩
      simp only [race_step, hexb]
      exact Or.inr rfl
    · have hstep : race_step nc uid db (.checked false) =
          ({ db with channels := nc :: db.channels, channel_members := ⟨nc.name, uid, .owner⟩ :: db.channel_members }, .done (.ok ())) := by
        simp only [race_step]
        unfold create_channel
        rw [if_neg (by simp [hexb])]
      rw [hstep]
      refine Or.inr ⟨chanExists_after_create db nc uid .owner, Or.inl ⟨rfl, ?_⟩⟩
      rcases hB with rfl | rfl
      · exact Or.inl rfl
      · exact Or.inr (Or.inl rfl)
  · -- channel present, request 1 already won: it is done and does not move
    subst hA
    exact Or.inr ⟨hex, Or.inl ⟨rfl, hB⟩⟩
  · -- channel present, request 2 won; request 1 can only lose
    have hexb : (get_channel db nc.name).isSome = true := hex
    rcases hA with rfl | rfl | rfl | rfl
    · refine Or.inr ⟨hex, Or.inr ⟨hB, ?_⟩⟩
      simp only [race_step, hexb]
      exact Or.inr (Or.inr (Or.inl rfl))
    · have hstep : race_step nc uid db (.checked false) =
          (db, .done (.error (channel_exists_err nc.name))) := by
        simp only [race_step]
        unfold create_channel
        rw [if_pos (by simp [hexb])]
      rw [hstep]
      exact Or.inr ⟨hex, Or.inr ⟨hB, Or.inr (Or.inr (Or.inr rfl))⟩⟩
    · exact Or.inr ⟨hex, Or.inr ⟨hB, Or.inr (Or.inr (Or.inr rfl))⟩⟩
    · exact Or.inr ⟨hex, Or.inr ⟨hB, Or.inr (Or.inr (Or.inr rfl))⟩⟩

/-- Every schedule preserves the race invariant. -/
lemma race_run_preserves (nc : ChannelRec) (uid1 uid2 : String) :
    ∀ (sched : List Bool) (st : RaceState),
    raceInv nc.name st → raceInv nc.name (race_run nc uid1 uid2 sched st)
  | [], _, h => h
  | true :: rest, st, h =>
    race_run_preserves nc uid1 uid2 rest _
      (race_step_preserves nc uid1 st.db st.r1 st.r2 h)
  | false :: rest, st, h =>
    race_run_preserves nc uid1 uid2 rest _
      (raceInv_swap nc.name _ _ _
        (race_step_preserves nc uid2 st.db st.r2 st.r1
          (raceInv_swap nc.name st.db st.r1 st.r2 h)))

/-- Principal resolution reads only the api_keys table of the database. -/
lemma assert_user_api_keys_only (db db' : Db) (creds : Creds)
    (h : db.api_keys = db'.api_keys) :
    assert_user db creds = assert_user db' creds := by
  unfold assert_user resolve_principal
  rw [h]

-- ------------------------------------------------------------------
-- Claim C1
-- ------------------------------------------------------------------

/-- C1, counterexample: a second upload of the same version key fails with
CONFLICT, but the archive bytes stored by the first attempt ("AAA") are
overwritten by the second attempt's bytes ("BBB") before the duplicate is
detected - contradicting the claim that the stored file remains unchanged. -/
theorem reupload_conflict_c1_cex :
    (post_file db_dup fs_dup creds_u1 "ch" "pkg" [f_b]).error =
      some (.http duplicateVersionErr) ∧
    fsRead fs_dup p0 = some "AAA" ∧
    fsRead (post_file db_dup fs_dup creds_u1 "ch" "pkg" [f_b]).fs p0 = some "BBB" :=
  ⟨rfl, rfl, rfl⟩

/-- C1, amended: re-uploading an already-recorded (package, platform, version,
build_number, build_string) key fails with CONFLICT and leaves the version
rows unchanged, but the archive bytes at the destination path ARE overwritten
by the failed attempt, because post_file writes the file before the Data
Access Layer checks the duplicate key. -/
theorem reupload_conflict_overwrites_c1
    (db : Db) (fs : Fs) (creds : Creds) (channel : ChannelRec) (package : PackageRec)
    (f : UploadFile) (info : IndexJson) (uid : String)
    (hch : get_channel db channel.name = some channel)
    (hpk : get_package db channel.name package.name = some package)
    (hau : assert_upload_file db creds package.channel_name package.name = .ok ())
    (hinfo : f.tarIndexJson = some info)
    (hpre : prefix_before_dash f.filename = package.name)
    (hname : info.name = package.name)
    (huid : assert_user db creds = .ok uid)
    (hdup : db.versions.any
      (fun w => same_version_key w (version_row package info f.filename uid)) = true) :
    post_file db fs creds channel.name package.name [f] =
      ⟨db, fsWrite fs (upload_path (channel_dir_of package.channel_name) info.subdir f.filename)
            f.content,
       false, some (.http duplicateVersionErr)⟩ := by
  have hcond : ¬ (prefix_before_dash f.filename ≠ package.name ∨ info.name ≠ package.name) := by
    push_neg
    exact ⟨hpre, hname⟩
  simp [post_file, hch, hpk, hau, files_loop, process_file, hinfo, hcond, huid,
    create_version, hdup]

/-- Witness for C1's amended theorem at a concrete duplicate upload. -/
theorem reupload_conflict_overwrites_c1_witness :
    post_file db_dup fs_dup creds_u1 "ch" "pkg" [f_b] =
      ⟨db_dup,
       fsWrite fs_dup (upload_path (channel_dir_of "ch") "linux-64" "pkg-1.0-0.tar.bz2") "BBB",
       false, some (.http duplicateVersionErr)⟩ :=
  reupload_conflict_overwrites_c1 db_dup fs_dup creds_u1 ch0 pkg0 f_b info0 "u1"
    rfl rfl rfl rfl rfl rfl rfl rfl

-- ------------------------------------------------------------------
-- Claim C2
-- ------------------------------------------------------------------

/-- C2: an uploaded file whose filename prefix (up to the first '-') differs
from the target package name, or whose metadata name field differs from it,
makes post_file fail with BAD_REQUEST for that file and persist nothing for
it: the processing step, and post_file on that file, return the database and
file system unchanged. -/
theorem upload_name_mismatch_c2 (creds : Creds) (db : Db) (fs : Fs)
    (channel : ChannelRec) (package : PackageRec) (cdir : String)
    (f : UploadFile) (info : IndexJson)
    (hinfo : f.tarIndexJson = some info)
    (hmism : prefix_before_dash f.filename ≠ package.name ∨ info.name ≠ package.name)
    (hch : get_channel db channel.name = some channel)
    (hpk : get_package db channel.name package.name = some package)
    (hau : assert_upload_file db creds package.channel_name package.name = .ok ()) :
    process_file creds package cdir db fs f = ⟨db, fs, some (.http badRequestErr)⟩ ∧
    post_file db fs creds channel.name package.name [f] =
      ⟨db, fs, false, some (.http badRequestErr)⟩ := by
  refine ⟨process_file_mismatch creds package cdir db fs f info hinfo hmism, ?_⟩
  have h2 := process_file_mismatch creds package (channel_dir_of package.channel_name)
    db fs f info hinfo hmism
  simp [post_file, hch, hpk, hau, files_loop, h2]

/-- Witness for C2 at a concrete misnamed upload. -/
theorem upload_name_mismatch_c2_witness :
    process_file creds_u1 pkg0 "static/channels/ch" db_file [] f_misnamed =
      ⟨db_file, [], some (.http badRequestErr)⟩ ∧
    post_file db_file [] creds_u1 "ch" "pkg" [f_misnamed] =
      ⟨db_file, [], false, some (.http badRequestErr)⟩ :=
  upload_name_mismatch_c2 creds_u1 db_file [] ch0 pkg0 "static/channels/ch"
    f_misnamed info0 rfl (by decide) rfl rfl rfl

-- ------------------------------------------------------------------
-- Claim C3
-- ------------------------------------------------------------------

/-- C3, counterexample: a successful POST /api-keys creation carries no
secret in its response body (`response_secret = none`), while the generated
secret IS returned by a later GET /api-keys listing - contradicting the claim
that the raw secret is in the creation response and not only in listings. -/
theorem api_key_secret_c3_cex :
    (post_api_key db_users creds_u1 req0 "SECRET").error = none ∧
    (post_api_key db_users creds_u1 req0 "SECRET").response_secret = none ∧
    get_api_keys (post_api_key db_users creds_u1 req0 "SECRET").db creds_u1 =
      .ok [⟨"SECRET", "ci key", []⟩] :=
  ⟨rfl, rfl, rfl⟩

/-- C3, amended: a successful POST /api-keys stores the generated secret but
returns no response body, so the secret is not in the creation response; it
is available afterwards through GET /api-keys, whose entries carry the raw
key strings of the caller's stored keys. -/
theorem api_key_secret_c3 (db : Db) (s : Session) (uid : String)
    (req : BaseApiKey) (fresh : String)
    (hs : s.user_id = some uid)
    (hroles : assert_create_api_key_roles db ⟨none, s⟩ req.roles = .ok ()) :
    (post_api_key db ⟨none, s⟩ req fresh).response_secret = none ∧
    (post_api_key db ⟨none, s⟩ req fresh).error = none ∧
    get_api_keys (post_api_key db ⟨none, s⟩ req fresh).db ⟨none, s⟩ =
      .ok (⟨fresh, req.description, req.roles⟩ ::
        (db.api_keys.filter (fun k => decide (k.owner_id = uid))).map
          (fun k => (⟨k.key, k.description, k.roles⟩ : ApiKeyOut))) := by
  have hu : ∀ db' : Db, assert_user db' ⟨none, s⟩ = .ok uid := by
    intro db'
    simp [assert_user, resolve_principal, hs]
  simp [post_api_key, hroles, hu, get_api_keys, create_api_key]

/-- Witness for C3's amended theorem at a concrete key creation. -/
theorem api_key_secret_c3_witness :
    (post_api_key db_users creds_u1 req0 "SECRET").response_secret = none ∧
    (post_api_key db_users creds_u1 req0 "SECRET").error = none ∧
    get_api_keys (post_api_key db_users creds_u1 req0 "SECRET").db creds_u1 =
      .ok (⟨"SECRET", "ci key", []⟩ ::
        (db_users.api_keys.filter (fun k => decide (k.owner_id = "u1"))).map
          (fun k => (⟨k.key, k.description, k.roles⟩ : ApiKeyOut))) :=
  api_key_secret_c3 db_users s_u1 "u1" req0 "SECRET" rfl rfl

-- ------------------------------------------------------------------
-- Claim C4
-- ------------------------------------------------------------------

/-- C4, counterexample: a batch whose file aborts (here: unreadable archive)
ends with an error and the index-regeneration subprocess NOT run -
contradicting the claim that index regeneration is triggered also when a
file aborts the batch. -/
theorem post_file_abort_no_index_c4_cex :
    (post_file db_file [] creds_u1 "ch" "pkg" [f_bad]).error.isSome = true ∧
    (post_file db_file [] creds_u1 "ch" "pkg" [f_bad]).ran_index = false :=
  ⟨rfl, rfl⟩

/-- C4, amended: index regeneration for the channel's storage root is
triggered exactly when every file of the batch reached RECORDED (the request
ends without error); when a file aborts, the exception propagates and the
regeneration is skipped.  Versions recorded before the abort are not rolled
back: the initial version rows stay a suffix of the final ones. -/
theorem post_file_index_iff_c4 (db : Db) (fs : Fs) (creds : Creds)
    (cname pname : String) (files : List UploadFile) :
    ((post_file db fs creds cname pname files).ran_index = true ↔
      (post_file db fs creds cname pname files).error = none) ∧
    List.IsSuffix db.versions (post_file db fs creds cname pname files).db.versions := by
  unfold post_file
  split
  · simp
  · next channel hch =>
    split
    · simp
    · next package hpk =>
      split
      · simp
      · next u hau =>
        split
        · next db2 fs2 e hloop =>
          have h1 := files_loop_versions_suffix creds package
            (channel_dir_of package.channel_name) files db fs
          rw [hloop] at h1
          exact ⟨by simp, h1⟩
        · next db2 fs2 hloop =>
          have h1 := files_loop_versions_suffix creds package
            (channel_dir_of package.channel_name) files db fs
          rw [hloop] at h1
          exact ⟨by simp, h1⟩

-- ------------------------------------------------------------------
-- Claim C5
-- ------------------------------------------------------------------

/-- C5, counterexample: a file whose archive does not open/parse makes
post_file end in the uncaught-exception outcome (a crash constructor, i.e. an
unhandled 500), not in an HTTP VALIDATION_ERROR response - contradicting the
claim that such failures are reported to the caller as VALIDATION_ERROR and
not an unhandled crash. -/
theorem upload_badtar_crash_c5_cex :
    (post_file db_file [] creds_u1 "ch" "pkg" [f_bad]).error =
      some (.crash "uncaught exception reading archive metadata") := rfl

/-- C5, amended: a file whose archive cannot be opened as a compressed tar
stream, lacks info/index.json, or contains invalid JSON makes post_file die
with an uncaught exception (no HTTP error response is produced); processing
of that file aborts with nothing persisted for it. -/
theorem upload_badtar_c5 (creds : Creds) (db : Db) (fs : Fs)
    (channel : ChannelRec) (package : PackageRec) (cdir : String)
    (f : UploadFile)
    (hinfo : f.tarIndexJson = none)
    (hch : get_channel db channel.name = some channel)
    (hpk : get_package db channel.name package.name = some package)
    (hau : assert_upload_file db creds package.channel_name package.name = .ok ()) :
    process_file creds package cdir db fs f = ⟨db, fs, some ingestCrash⟩ ∧
    post_file db fs creds channel.name package.name [f] =
      ⟨db, fs, false, some ingestCrash⟩ := by
  refine ⟨process_file_badtar creds package cdir db fs f hinfo, ?_⟩
  have h2 := process_file_badtar creds package (channel_dir_of package.channel_name) db fs f hinfo
  simp [post_file, hch, hpk, hau, files_loop, h2]

/-- Witness for C5's amended theorem at a concrete unreadable upload. -/
theorem upload_badtar_c5_witness :
    process_file creds_u1 pkg0 "static/channels/ch" db_file [] f_bad =
      ⟨db_file, [], some ingestCrash⟩ ∧
    post_file db_file [] creds_u1 "ch" "pkg" [f_bad] =
      ⟨db_file, [], false, some ingestCrash⟩ :=
  upload_badtar_c5 creds_u1 db_file [] ch0 pkg0 "static/channels/ch" f_bad rfl rfl rfl rfl

-- ------------------------------------------------------------------
-- Claim C6
-- ------------------------------------------------------------------

/-- C6, counterexample: a session recording the external identity provider
'dummy' whose revocation oracle fails for every token is NOT treated as
logged out: GET /me leaves the session untouched and returns the profile,
contradicting the claim, which quantifies over every recorded provider. -/
theorem me_dummy_not_revoked_c6_cex :
    me vt_false db_users ⟨none, s_dummy_tok⟩ = (s_dummy_tok, .ok (some u1)) := rfl

/-- C6, amended: only for sessions whose identity_provider is exactly
'github' does a failed revocation check invalidate the session: the session
state is cleared and GET /me returns 401 UNAUTHENTICATED. -/
theorem me_github_revoked_c6 (vt : Option String → Bool) (db : Db) (creds : Creds)
    (hip : creds.session.identity_provider = some "github")
    (hvt : vt creds.session.token = false) :
    me vt db creds = (⟨none, none, none⟩, .error unauthenticatedErr) := by
  simp [me, check_token_revocation, hip, hvt, logout]

/-- Witness for C6's amended theorem at a concrete github session. -/
theorem me_github_revoked_c6_witness :
    me vt_false db_users ⟨none, s_github_tok⟩ =
      (⟨none, none, none⟩, .error unauthenticatedErr) :=
  me_github_revoked_c6 vt_false db_users ⟨none, s_github_tok⟩ rfl rfl

-- ------------------------------------------------------------------
-- Claim C7
-- ------------------------------------------------------------------

/-- C7: logout removes the user-id, identity-provider and token fields, is
idempotent, and a subsequent GET /me on the logged-out session (with no API
key) returns 401 UNAUTHENTICATED. -/
theorem logout_idempotent_c7 (s : Session) (vt : Option String → Bool) (db : Db) :
    logout s = ⟨none, none, none⟩ ∧
    logout (logout s) = logout s ∧
    me vt db ⟨none, logout s⟩ = (logout s, .error unauthenticatedErr) :=
  ⟨rfl, rfl, rfl⟩

-- ------------------------------------------------------------------
-- Claim C8
-- ------------------------------------------------------------------

/-- C8: two POST /channels requests for the same name yield exactly one
success and one 409 CONFLICT.  Sequentially: after a successful create, a
second create of the same name fails with the CONFLICT error and changes
nothing.  Concurrently: for every interleaving of the two requests'
check/insert steps in which both requests finish, one finishes ok and the
other finishes with the CONFLICT error. -/
theorem channel_create_race_c8
    (db : Db) (creds : Creds) (nc : ChannelRec) (db2 : Db)
    (h1 : post_channel db creds nc = (db2, .ok ()))
    (uid1 uid2 : String) (sched : List Bool) (a b : Except HTTPError Unit)
    (ha : (race_run nc uid1 uid2 sched ⟨db, .start, .start⟩).r1 = .done a)
    (hb : (race_run nc uid1 uid2 sched ⟨db, .start, .start⟩).r2 = .done b) :
    post_channel db2 creds nc = (db2, .error (channel_exists_err nc.name)) ∧
    ((a = .ok () ∧ b = .error (channel_exists_err nc.name))
      ∨ (b = .ok () ∧ a = .error (channel_exists_err nc.name))) := by
  obtain ⟨⟨uid, hu, hdb2⟩, hex⟩ := post_channel_ok_facts db creds nc db2 h1
  constructor
  · -- sequential: the second create of the same name gets 409 and changes nothing
    have hu2 : assert_user db2 creds = .ok uid := by
      rw [← assert_user_api_keys_only db db2 creds (by rw [hdb2]), hu]
    have hex2 : (get_channel db2 nc.name).isSome = true := by
      rw [hdb2]
      exact chanExists_after_create db nc uid .owner
    unfold post_channel
    rw [hu2]
    simp only []
    rw [if_pos hex2]
  · -- concurrent: any completed interleaving has one winner and one CONFLICT
    have hinv0 : raceInv nc.name ⟨db, .start, .start⟩ :=
      Or.inl ⟨by simpa [chanExists] using hex, Or.inl rfl, Or.inl rfl⟩
    have hinv := race_run_preserves nc uid1 uid2 sched ⟨db, .start, .start⟩ hinv0
    rcases hinv with ⟨-, hA, hB⟩ | ⟨-, ⟨hA, hB⟩ | ⟨hB, hA⟩⟩
    · rcases hA with hA | hA <;> rw [ha] at hA <;> exact absurd hA (by simp)
    · left
      rw [ha] at hA
      refine ⟨by injection hA, ?_⟩
      rcases hB with hB | hB | hB | hB <;> rw [hb] at hB
      · exact absurd hB (by simp)
      · exact absurd hB (by simp)
      · exact absurd hB (by simp)
      · injection hB
    · right
      rw [hb] at hB
      refine ⟨by injection hB, ?_⟩
      rcases hA with hA | hA | hA | hA <;> rw [ha] at hA
      · exact absurd hA (by simp)
      · exact absurd hA (by simp)
      · exact absurd hA (by simp)
      · injection hA

/-- Witness for C8 at a concrete pair of requests and a concrete schedule in
which request 1 runs both steps first. -/
theorem channel_create_race_c8_witness :
    post_channel db_after_ch creds_u1 nc0 =
      (db_after_ch, .error (channel_exists_err "ch")) ∧
    (((Except.ok () : Except HTTPError Unit) = .ok () ∧
        (Except.error (channel_exists_err "ch") : Except HTTPError Unit) =
          .error (channel_exists_err "ch"))
      ∨ ((Except.error (channel_exists_err "ch") : Except HTTPError Unit) = .ok () ∧
          (Except.ok () : Except HTTPError Unit) = .error (channel_exists_err "ch"))) :=
  channel_create_race_c8 db_users creds_u1 nc0 db_after_ch rfl "u1" "u1"
    [true, true, false, false] (.ok ()) (.error (channel_exists_err "ch")) rfl rfl

-- ------------------------------------------------------------------
-- Claim C9
-- ------------------------------------------------------------------

/-- C9: every successfully created channel and every successfully created
package records the authenticated creating user as an OWNER-role member of
the new channel or package, so each has at least one OWNER at creation. -/
theorem creator_is_owner_c9
    (db : Db) (creds : Creds) (nc : ChannelRec) (db2 : Db)
    (h1 : post_channel db creds nc = (db2, .ok ()))
    (dbp : Db) (credsp : Creds) (cname : String) (np : PackageBody) (dbp2 : Db)
    (h2 : post_package dbp credsp cname np = (dbp2, .ok ())) :
    (∃ uid, assert_user db creds = .ok uid ∧
      (⟨nc.name, uid, Role.owner⟩ : ChannelMemberRec) ∈ db2.channel_members) ∧
    (∃ uidp, assert_user dbp credsp = .ok uidp ∧
      (⟨cname, np.name, uidp, Role.owner⟩ : PackageMemberRec) ∈ dbp2.package_members) := by
  obtain ⟨⟨uid, hu, hdb⟩, -⟩ := post_channel_ok_facts db creds nc db2 h1
  obtain ⟨uidp, hup, hdbp⟩ := post_package_ok_facts dbp credsp cname np dbp2 h2
  constructor
  · exact ⟨uid, hu, by rw [hdb]; exact List.mem_cons_self _ _⟩
  · exact ⟨uidp, hup, by rw [hdbp]; exact List.mem_cons_self _ _⟩

/-- Witness for C9 at a concrete channel and package creation. -/
theorem creator_is_owner_c9_witness :
    (∃ uid, assert_user db_users creds_u1 = .ok uid ∧
      (⟨"ch", uid, Role.owner⟩ : ChannelMemberRec) ∈ db_after_ch.channel_members) ∧
    (∃ uidp, assert_user db_chan creds_u1 = .ok uidp ∧
      (⟨"ch", "pkg", uidp, Role.owner⟩ : PackageMemberRec) ∈ db_after_pkg.package_members) :=
  creator_is_owner_c9 db_users creds_u1 nc0 db_after_ch rfl
    db_chan creds_u1 "ch" np0 db_after_pkg rfl

-- ------------------------------------------------------------------
-- Claim C10
-- ------------------------------------------------------------------

/-- C10: the token-revocation check acts only on sessions whose
identity_provider is exactly 'github'.  For every other session (provider
absent or any other string) it returns the session unchanged with no error
and never consults the provider oracle; in particular the sessions produced
by dummy_login record provider 'dummy' and are never invalidated by it. -/
theorem check_rev_skips_non_github_c10
    (vt vt' : Option String → Bool) (s : Session)
    (h : s.identity_provider ≠ some "github")
    (db : Db) (uname : String) (s0 s1 : Session) (u : UserRec)
    (hu : get_user_by_username db uname = some u)
    (hd : dummy_login db uname s0 = some s1) :
    check_token_revocation vt s = (s, none) ∧
    check_token_revocation vt s = check_token_revocation vt' s ∧
    s1.identity_provider = some "dummy" ∧
    check_token_revocation vt s1 = (s1, none) := by
  have h1 : check_token_revocation vt s = (s, none) := by
    simp [check_token_revocation, h]
  have h1' : check_token_revocation vt' s = (s, none) := by
    simp [check_token_revocation, h]
  have hs1 : s1 = ⟨some u.id, some "dummy", none⟩ := by
    simp [dummy_login, hu, logout] at hd
    exact hd.symm
  refine ⟨h1, h1.trans h1'.symm, ?_, ?_⟩
  · rw [hs1]
  · rw [hs1]; simp [check_token_revocation]

/-- Witness for C10 at a concrete dummy session and both oracle outcomes. -/
theorem check_rev_skips_non_github_c10_witness :
    check_token_revocation vt_true s_dummy_tok = (s_dummy_tok, none) ∧
    check_token_revocation vt_true s_dummy_tok =
      check_token_revocation vt_false s_dummy_tok ∧
    (⟨some "u1", some "dummy", none⟩ : Session).identity_provider = some "dummy" ∧
    check_token_revocation vt_true ⟨some "u1", some "dummy", none⟩ =
      (⟨some "u1", some "dummy", none⟩, none) :=
  check_rev_skips_non_github_c10 vt_true vt_false s_dummy_tok (by decide)
    db_users "alice" ⟨none, none, none⟩ ⟨some "u1", some "dummy", none⟩ u1 rfl rfl

end Quetz
